import Mathlib

/-!
# Verification of the certloader file watcher (pkg/crypto/certloader/watcher.go)

This development embeds the watcher orchestration of the certloader package:
the event loop started by `Watcher.Watch`, the path-to-role classification it
builds, the per-role debounce timers, the one-shot readiness signal, the
`FutureWatcher` goroutine and `Watcher.Stop`.

The `FileReloader` credential store is not part of the analysed sources (only
its callers are); it is modelled from the specification of the credential
store contract. Reload outcomes (whether reading and parsing the files on disk
succeeds) are external to the loop and appear as boolean inputs on the events.
-/

namespace Certloader

/-- Modelled from the spec: the credential store (`FileReloader`), whose
implementation is not among the analysed sources. Only the configured paths
and whether each role has been successfully loaded at least once since
construction are relevant to the watcher orchestration. -/
structure FileReloader where
  caFiles : List String
  certFile : String
  privkeyFile : String
  keypairLoaded : Bool
  caLoaded : Bool
  deriving DecidableEq

/-- Modelled from the spec: `ReloadKeypair` atomically replaces the stored
keypair on success and leaves the previous value untouched on failure. The
success of the underlying file read/parse is the external input `ok`. -/
def FileReloader.reloadKeypair (r : FileReloader) (ok : Bool) : FileReloader :=
  if ok then { r with keypairLoaded := true } else r

/-- Modelled from the spec: `ReloadCA`, with the same failure semantics as
`FileReloader.reloadKeypair`. -/
def FileReloader.reloadCA (r : FileReloader) (ok : Bool) : FileReloader :=
  if ok then { r with caLoaded := true } else r

/-- Modelled from the spec: `Ready` is true iff every configured role has been
successfully loaded at least once since construction; a role with zero
configured paths counts as satisfied. -/
def FileReloader.Ready (r : FileReloader) : Bool :=
  (r.keypairLoaded || (r.certFile == "" && r.privkeyFile == "")) &&
  (r.caLoaded || r.caFiles.isEmpty)

/-- Membership in the `keypairMap` built at the top of `Watcher.Watch`:
`certFile` and `privkeyFile` are inserted when non-empty. -/
def keypairMember (r : FileReloader) (path : String) : Bool :=
  decide ((r.certFile ≠ "" ∧ path = r.certFile) ∨
          (r.privkeyFile ≠ "" ∧ path = r.privkeyFile))

/-- Membership in the `caMap` built at the top of `Watcher.Watch`: every entry
of `caFiles` is inserted. -/
def caMember (r : FileReloader) (path : String) : Bool :=
  decide (path ∈ r.caFiles)

/-- The `trackFiles` list assembled by `newFsWatcher`: the non-empty
`certFile`, the non-empty `privkeyFile` and the non-empty `caFiles`, in that
order. These are the paths the file event source is asked to watch. -/
def trackFilesOf (r : FileReloader) : List String :=
  (if r.certFile ≠ "" then [r.certFile] else []) ++
  (if r.privkeyFile ≠ "" then [r.privkeyFile] else []) ++
  r.caFiles.filter (fun p => p != "")

/-- State of the event-loop goroutine spawned by `Watcher.Watch`. Besides the
fields read by the loop itself (the reloader, the two armed-timer markers, the
one-shot `ready` close guard and the stop flag), ghost counters record how
often each externally visible operation has been invoked: `time.After` calls
per role, `ReloadKeypair`/`ReloadCA` calls, `close(ready)` executions, and the
warnings logged for unknown paths, failed reloads and fswatcher errors. -/
structure LoopState where
  reloader : FileReloader
  keypairArmed : Bool
  caArmed : Bool
  readyClosed : Bool
  stopped : Bool
  fswatcherClosed : Bool
  keypairTimersArmed : Nat
  caTimersArmed : Nat
  keypairReloadCalls : Nat
  caReloadCalls : Nat
  readyCloses : Nat
  unknownWarns : Nat
  reloadErrWarns : Nat
  fsErrWarns : Nat
  deriving DecidableEq

/-- The events the loop's `select` can wake up on: an fswatcher event carrying
a path, a debounce timer firing (carrying the external outcome of the reload
it triggers), an fswatcher error, and a stop request. -/
inductive LoopEvent where
  | fsEvent (path : String)
  | keypairTimer (reloadOk : Bool)
  | caTimer (reloadOk : Bool)
  | fsError
  | stopReq
  deriving DecidableEq

/-- `markReady` from `Watcher.Watch`: `once.Do(func() \x7b close(ready) \x7d)`.
The channel is closed only when it has not been closed before. -/
def markReady (s : LoopState) : LoopState :=
  if s.readyClosed then s
  else { s with readyClosed := true, readyCloses := s.readyCloses + 1 }

/-- One iteration of the `select` loop of `Watcher.Watch`. After the loop has
returned (`stopped`), no further event is processed. -/
def step (s : LoopState) (e : LoopEvent) : LoopState :=
  if s.stopped then s
  else
    match e with
    | .fsEvent path =>
      if keypairMember s.reloader path then
        if s.keypairArmed then s
        else { s with keypairArmed := true,
                      keypairTimersArmed := s.keypairTimersArmed + 1 }
      else if caMember s.reloader path then
        if s.caArmed then s
        else { s with caArmed := true,
                      caTimersArmed := s.caTimersArmed + 1 }
      else
        { s with unknownWarns := s.unknownWarns + 1 }
    | .keypairTimer ok =>
      let s1 := { s with keypairArmed := false,
                         keypairReloadCalls := s.keypairReloadCalls + 1,
                         reloader := s.reloader.reloadKeypair ok }
      if ok then
        if s1.reloader.Ready then markReady s1 else s1
      else
        { s1 with reloadErrWarns := s1.reloadErrWarns + 1 }
    | .caTimer ok =>
      let s1 := { s with caArmed := false,
                         caReloadCalls := s.caReloadCalls + 1,
                         reloader := s.reloader.reloadCA ok }
      if ok then
        if s1.reloader.Ready then markReady s1 else s1
      else
        { s1 with reloadErrWarns := s1.reloadErrWarns + 1 }
    | .fsError =>
      { s with fsErrWarns := s.fsErrWarns + 1 }
    | .stopReq =>
      { s with stopped := true, fswatcherClosed := true }

/-- Run the event loop over a sequence of events. -/
def runLoop (s : LoopState) (evs : List LoopEvent) : LoopState :=
  evs.foldl step s

/-- The loop state at the start of `Watcher.Watch`: nothing armed, the ready
channel open, the loop running, all counters zero. -/
def initState (r : FileReloader) : LoopState :=
  { reloader := r
    keypairArmed := false
    caArmed := false
    readyClosed := false
    stopped := false
    fswatcherClosed := false
    keypairTimersArmed := 0
    caTimersArmed := 0
    keypairReloadCalls := 0
    caReloadCalls := 0
    readyCloses := 0
    unknownWarns := 0
    reloadErrWarns := 0
    fsErrWarns := 0 }

/-- Outcome of the `FutureWatcher` goroutine as observed on the result
channel `res`: either the watcher is sent before the goroutine returns and the
deferred `close(res)` then runs (`deliveredImmediately` when both eager
reloads succeeded and no event was awaited, `deliveredOnReady` when the ready
channel fired first), or the goroutine returns from the stop branch and the
deferred `close(res)` closes the channel with no value ever sent
(`stoppedClosedEmpty`). -/
inductive FutureOutcome where
  | deliveredImmediately
  | deliveredOnReady
  | stoppedClosedEmpty
  deriving DecidableEq

/-- The body of the goroutine spawned by `FutureWatcher`: eagerly reload the
keypair then the CA, deliver the watcher at once when both succeeded, and
otherwise wait for whichever of the ready channel and the stop channel fires
first (`readyFirst`). `keypairOk` and `caOk` are the external outcomes of the
two eager reloads. Returns the observed channel outcome together with the
reloader state after the eager reloads. -/
def futureBody (r : FileReloader) (keypairOk caOk readyFirst : Bool) :
    FutureOutcome × FileReloader :=
  let r1 := r.reloadKeypair keypairOk
  let r2 := r1.reloadCA caOk
  if keypairOk && caOk then (.deliveredImmediately, r2)
  else if readyFirst then (.deliveredOnReady, r2)
  else (.stoppedClosedEmpty, r2)

/-- The watcher value assembled by `NewWatcher` and `FutureWatcher`; only the
reloader matters to the embedded claims. -/
structure WatcherModel where
  reloader : FileReloader
  deriving DecidableEq

/-- Modelled from the spec: `NewFileReloaderReady`, the eagerly-loading
reloader constructor, whose implementation is not among the analysed sources.
It fails unless both configured roles are immediately loadable (the external
outcomes `keypairLoadable` and `caLoadable`) and on success returns a store
whose roles have all been loaded. -/
def NewFileReloaderReady (caFiles : List String) (certFile privkeyFile : String)
    (keypairLoadable caLoadable : Bool) : Option FileReloader :=
  if keypairLoadable && caLoadable then
    some { caFiles := caFiles, certFile := certFile, privkeyFile := privkeyFile,
           keypairLoaded := true, caLoaded := true }
  else none

/-- `NewWatcher`: build the reloader with `NewFileReloaderReady`, then the
fswatcher (whose construction succeeds iff the external `fsWatchable` holds),
propagating either error; on success start `Watch` and return the watcher. -/
def NewWatcher (caFiles : List String) (certFile privkeyFile : String)
    (keypairLoadable caLoadable fsWatchable : Bool) : Option WatcherModel :=
  match NewFileReloaderReady caFiles certFile privkeyFile keypairLoadable caLoadable with
  | none => none
  | some r => if fsWatchable then some { reloader := r } else none

/-! ## Interleaving model of `Watcher.Stop`

`Stop` executes `select \x7b case <-w.stop: default: close(w.stop) \x7d`. Under
the Go semantics this is two observable actions: first the select's readiness
check of the stop channel (which picks the receive case when the channel is
already closed and the default case otherwise), then, when the default case
was picked, the `close` call. `close` of an already-closed channel panics at
run time. Two concurrent `Stop` calls are modelled as two program counters
interleaved over a shared channel state. -/

/-- Program counter of one `Stop` call: not yet started its select, committed
to the default branch (about to `close`), or returned. -/
inductive StopPc where
  | start
  | needClose
  | done
  deriving DecidableEq

/-- Shared state of two interleaved `Stop` calls: whether the stop channel is
closed, how many times `close` has executed on it (a second execution is a Go
run-time panic), and each call's program counter. -/
structure StopSystem where
  stopClosed : Bool
  closeCount : Nat
  pc1 : StopPc
  pc2 : StopPc
  deriving DecidableEq

/-- The four atomic actions of the two interleaved `Stop` calls. -/
inductive StopAct where
  | check1
  | close1
  | check2
  | close2
  deriving DecidableEq

/-- One atomic action of a `Stop` call; `none` when the action is not enabled
at the caller's current program counter. -/
def stopStep (s : StopSystem) (a : StopAct) : Option StopSystem :=
  match a with
  | .check1 =>
    match s.pc1 with
    | .start => some { s with pc1 := if s.stopClosed then .done else .needClose }
    | _ => none
  | .close1 =>
    match s.pc1 with
    | .needClose =>
      some { s with stopClosed := true, closeCount := s.closeCount + 1, pc1 := .done }
    | _ => none
  | .check2 =>
    match s.pc2 with
    | .start => some { s with pc2 := if s.stopClosed then .done else .needClose }
    | _ => none
  | .close2 =>
    match s.pc2 with
    | .needClose =>
      some { s with stopClosed := true, closeCount := s.closeCount + 1, pc2 := .done }
    | _ => none

/-- Run a schedule of interleaved `Stop` actions; `none` when the schedule is
not a real interleaving (an action fires at a program counter where the code
cannot take it). -/
def stopRun (s : StopSystem) : List StopAct → Option StopSystem
  | [] => some s
  | a :: rest =>
    match stopStep s a with
    | some s2 => stopRun s2 rest
    | none => none

/-- Both `Stop` calls pending on a freshly constructed watcher (the `stop`
channel open, never closed). -/
def stopInit : StopSystem :=
  { stopClosed := false, closeCount := 0, pc1 := .start, pc2 := .start }

/-- Invariant of the event loop: the ready channel has been closed exactly
when the store is ready, and the number of `close(ready)` executions is `1`
when it has been closed and `0` otherwise. -/
def ReadyInv (s : LoopState) : Prop :=
  s.readyClosed = s.reloader.Ready ∧
  s.readyCloses = (if s.readyClosed then 1 else 0)

/-- A sample configuration: one CA file, a certificate and a private key, all
distinct, nothing loaded yet. -/
def sampleReloader : FileReloader :=
  { caFiles := ["ca"], certFile := "cert", privkeyFile := "key",
    keypairLoaded := false, caLoaded := false }

/-- A sample configuration in which the certificate path is also configured
as a CA path. -/
def sharedReloader : FileReloader :=
  { caFiles := ["shared"], certFile := "shared", privkeyFile := "key",
    keypairLoaded := false, caLoaded := false }

/-- The loop state at the start of `Watcher.Watch` over `sampleReloader`. -/
def sampleState : LoopState := initState sampleReloader

/-- The loop state at the start of `Watcher.Watch` over `sharedReloader`. -/
def sharedState : LoopState := initState sharedReloader

/-- The watcher produced by a fully successful `NewWatcher` over the sample
configuration. -/
def readyWatcher : WatcherModel :=
  { reloader := { caFiles := ["ca"], certFile := "cert", privkeyFile := "key",
                  keypairLoaded := true, caLoaded := true } }

/-! ## Basic lemmas about the reloader -/

@[simp]
theorem reloadKeypair_certFile (r : FileReloader) (ok : Bool) :
    (r.reloadKeypair ok).certFile = r.certFile := by
  unfold FileReloader.reloadKeypair; split <;> rfl

@[simp]
theorem reloadKeypair_privkeyFile (r : FileReloader) (ok : Bool) :
    (r.reloadKeypair ok).privkeyFile = r.privkeyFile := by
  unfold FileReloader.reloadKeypair; split <;> rfl

@[simp]
theorem reloadKeypair_caFiles (r : FileReloader) (ok : Bool) :
    (r.reloadKeypair ok).caFiles = r.caFiles := by
  unfold FileReloader.reloadKeypair; split <;> rfl

@[simp]
theorem reloadCA_certFile (r : FileReloader) (ok : Bool) :
    (r.reloadCA ok).certFile = r.certFile := by
  unfold FileReloader.reloadCA; split <;> rfl

@[simp]
theorem reloadCA_privkeyFile (r : FileReloader) (ok : Bool) :
    (r.reloadCA ok).privkeyFile = r.privkeyFile := by
  unfold FileReloader.reloadCA; split <;> rfl

@[simp]
theorem reloadCA_caFiles (r : FileReloader) (ok : Bool) :
    (r.reloadCA ok).caFiles = r.caFiles := by
  unfold FileReloader.reloadCA; split <;> rfl

@[simp]
theorem reloadKeypair_false (r : FileReloader) : r.reloadKeypair false = r := rfl

@[simp]
theorem reloadCA_false (r : FileReloader) : r.reloadCA false = r := rfl

/-- A failed reload leaves readiness unchanged; a successful one never makes a
ready store unready. -/
theorem Ready_mono_reloadKeypair (r : FileReloader) (ok : Bool)
    (h : r.Ready = true) : (r.reloadKeypair ok).Ready = true := by
  cases ok with
  | false => simpa using h
  | true =>
    simp only [FileReloader.Ready, FileReloader.reloadKeypair, if_true,
      Bool.and_eq_true, Bool.or_eq_true] at h ⊢
    exact ⟨Or.inl trivial, h.2⟩

/-- CA counterpart of `Ready_mono_reloadKeypair`. -/
theorem Ready_mono_reloadCA (r : FileReloader) (ok : Bool)
    (h : r.Ready = true) : (r.reloadCA ok).Ready = true := by
  cases ok with
  | false => simpa using h
  | true =>
    simp only [FileReloader.Ready, FileReloader.reloadCA, if_true,
      Bool.and_eq_true, Bool.or_eq_true] at h ⊢
    exact ⟨h.1, Or.inl trivial⟩

/-! ## Step lemmas for the event loop -/

/-- A notification for a keypair path arms the keypair timer when none is
armed; nothing else changes. -/
theorem step_fsEvent_arms_keypair (s : LoopState) (p : String)
    (hs : s.stopped = false) (ha : s.keypairArmed = false)
    (hp : keypairMember s.reloader p = true) :
    step s (.fsEvent p) =
      { s with keypairArmed := true,
               keypairTimersArmed := s.keypairTimersArmed + 1 } := by
  simp [step, hs, ha, hp]

/-- A notification for a keypair path while the keypair timer is already
armed leaves the state unchanged: no second timer is armed. -/
theorem step_fsEvent_keypair_already_armed (s : LoopState) (p : String)
    (hs : s.stopped = false) (ha : s.keypairArmed = true)
    (hp : keypairMember s.reloader p = true) :
    step s (.fsEvent p) = s := by
  simp [step, hs, ha, hp]

/-- A notification for a CA path (not a keypair path) arms the CA timer when
none is armed; nothing else changes. -/
theorem step_fsEvent_arms_ca (s : LoopState) (p : String)
    (hs : s.stopped = false) (ha : s.caArmed = false)
    (hk : keypairMember s.reloader p = false)
    (hp : caMember s.reloader p = true) :
    step s (.fsEvent p) =
      { s with caArmed := true, caTimersArmed := s.caTimersArmed + 1 } := by
  simp [step, hs, ha, hk, hp]

/-- A notification for a CA path while the CA timer is already armed leaves
the state unchanged: no second timer is armed. -/
theorem step_fsEvent_ca_already_armed (s : LoopState) (p : String)
    (hs : s.stopped = false) (ha : s.caArmed = true)
    (hk : keypairMember s.reloader p = false)
    (hp : caMember s.reloader p = true) :
    step s (.fsEvent p) = s := by
  simp [step, hs, ha, hk, hp]

/-- A burst of further keypair notifications while the keypair timer is armed
is entirely absorbed. -/
theorem runLoop_keypair_burst_absorbed (paths : List String) (s : LoopState)
    (hs : s.stopped = false) (ha : s.keypairArmed = true)
    (hall : ∀ p ∈ paths, keypairMember s.reloader p = true) :
    runLoop s (paths.map .fsEvent) = s := by
  induction paths with
  | nil => rfl
  | cons p rest ih =>
    have hstep : step s (.fsEvent p) = s :=
      step_fsEvent_keypair_already_armed s p hs ha (hall p (by simp))
    have : runLoop s ((p :: rest).map .fsEvent) = runLoop s (rest.map .fsEvent) := by
      simp [runLoop, List.foldl, hstep]
    rw [this]
    exact ih (fun q hq => hall q (by simp [hq]))

/-- CA counterpart of `runLoop_keypair_burst_absorbed`. -/
theorem runLoop_ca_burst_absorbed (paths : List String) (s : LoopState)
    (hs : s.stopped = false) (ha : s.caArmed = true)
    (hallk : ∀ p ∈ paths, keypairMember s.reloader p = false)
    (hall : ∀ p ∈ paths, caMember s.reloader p = true) :
    runLoop s (paths.map .fsEvent) = s := by
  induction paths with
  | nil => rfl
  | cons p rest ih =>
    have hstep : step s (.fsEvent p) = s :=
      step_fsEvent_ca_already_armed s p hs ha (hallk p (by simp)) (hall p (by simp))
    have : runLoop s ((p :: rest).map .fsEvent) = runLoop s (rest.map .fsEvent) := by
      simp [runLoop, List.foldl, hstep]
    rw [this]
    exact ih (fun q hq => hallk q (by simp [hq])) (fun q hq => hall q (by simp [hq]))

/-! ## Projections of `markReady`: only the ready channel is touched -/

@[simp]
theorem markReady_reloader (s : LoopState) :
    (markReady s).reloader = s.reloader := by
  unfold markReady; split <;> rfl

@[simp]
theorem markReady_keypairArmed (s : LoopState) :
    (markReady s).keypairArmed = s.keypairArmed := by
  unfold markReady; split <;> rfl

@[simp]
theorem markReady_caArmed (s : LoopState) :
    (markReady s).caArmed = s.caArmed := by
  unfold markReady; split <;> rfl

@[simp]
theorem markReady_stopped (s : LoopState) :
    (markReady s).stopped = s.stopped := by
  unfold markReady; split <;> rfl

@[simp]
theorem markReady_fswatcherClosed (s : LoopState) :
    (markReady s).fswatcherClosed = s.fswatcherClosed := by
  unfold markReady; split <;> rfl

@[simp]
theorem markReady_keypairTimersArmed (s : LoopState) :
    (markReady s).keypairTimersArmed = s.keypairTimersArmed := by
  unfold markReady; split <;> rfl

@[simp]
theorem markReady_caTimersArmed (s : LoopState) :
    (markReady s).caTimersArmed = s.caTimersArmed := by
  unfold markReady; split <;> rfl

@[simp]
theorem markReady_keypairReloadCalls (s : LoopState) :
    (markReady s).keypairReloadCalls = s.keypairReloadCalls := by
  unfold markReady; split <;> rfl

@[simp]
theorem markReady_caReloadCalls (s : LoopState) :
    (markReady s).caReloadCalls = s.caReloadCalls := by
  unfold markReady; split <;> rfl

@[simp]
theorem markReady_unknownWarns (s : LoopState) :
    (markReady s).unknownWarns = s.unknownWarns := by
  unfold markReady; split <;> rfl

@[simp]
theorem markReady_reloadErrWarns (s : LoopState) :
    (markReady s).reloadErrWarns = s.reloadErrWarns := by
  unfold markReady; split <;> rfl

@[simp]
theorem markReady_fsErrWarns (s : LoopState) :
    (markReady s).fsErrWarns = s.fsErrWarns := by
  unfold markReady; split <;> rfl

/-! ## Timer-fire lemmas -/

/-- A keypair timer fire clears the armed marker, performs exactly one
keypair reload, arms no new timer and keeps the loop running. -/
theorem step_keypairTimer_fields (s : LoopState) (ok : Bool)
    (hs : s.stopped = false) :
    (step s (.keypairTimer ok)).keypairArmed = false ∧
    (step s (.keypairTimer ok)).caArmed = s.caArmed ∧
    (step s (.keypairTimer ok)).keypairReloadCalls = s.keypairReloadCalls + 1 ∧
    (step s (.keypairTimer ok)).caReloadCalls = s.caReloadCalls ∧
    (step s (.keypairTimer ok)).keypairTimersArmed = s.keypairTimersArmed ∧
    (step s (.keypairTimer ok)).caTimersArmed = s.caTimersArmed ∧
    (step s (.keypairTimer ok)).stopped = false ∧
    (step s (.keypairTimer ok)).reloader = s.reloader.reloadKeypair ok := by
  cases ok with
  | false => simp [step, hs]
  | true =>
    simp only [step, hs, Bool.false_eq_true, if_false, if_true]
    split <;> simp

/-- CA counterpart of `step_keypairTimer_fields`. -/
theorem step_caTimer_fields (s : LoopState) (ok : Bool)
    (hs : s.stopped = false) :
    (step s (.caTimer ok)).caArmed = false ∧
    (step s (.caTimer ok)).keypairArmed = s.keypairArmed ∧
    (step s (.caTimer ok)).caReloadCalls = s.caReloadCalls + 1 ∧
    (step s (.caTimer ok)).keypairReloadCalls = s.keypairReloadCalls ∧
    (step s (.caTimer ok)).keypairTimersArmed = s.keypairTimersArmed ∧
    (step s (.caTimer ok)).caTimersArmed = s.caTimersArmed ∧
    (step s (.caTimer ok)).stopped = false ∧
    (step s (.caTimer ok)).reloader = s.reloader.reloadCA ok := by
  cases ok with
  | false => simp [step, hs]
  | true =>
    simp only [step, hs, Bool.false_eq_true, if_false, if_true]
    split <;> simp

/-! ## The one-shot readiness invariant -/

/-- Processing a notification never touches the reloader, the ready channel
or the close counter. -/
theorem step_fsEvent_preserves_ready (s : LoopState) (p : String) :
    (step s (.fsEvent p)).readyClosed = s.readyClosed ∧
    (step s (.fsEvent p)).readyCloses = s.readyCloses ∧
    (step s (.fsEvent p)).reloader = s.reloader := by
  cases hs : s.stopped <;>
    cases hk : keypairMember s.reloader p <;>
    cases hc : caMember s.reloader p <;>
    cases ha : s.keypairArmed <;>
    cases hca : s.caArmed <;>
    simp [step, hs, hk, hc, ha, hca]

/-- The readiness invariant is preserved by every loop step. -/
theorem step_readyInv (s : LoopState) (e : LoopEvent) (h : ReadyInv s) :
    ReadyInv (step s e) := by
  obtain ⟨h1, h2⟩ := h
  by_cases hs : s.stopped
  · simpa [step, hs, ReadyInv] using ⟨h1, h2⟩
  · cases e with
    | fsEvent p =>
      obtain ⟨e1, e2, e3⟩ := step_fsEvent_preserves_ready s p
      refine ⟨?_, ?_⟩
      · rw [e1, e3]; exact h1
      · rw [e2, e1]; exact h2
    | keypairTimer ok =>
      cases ok with
      | false =>
        simpa [step, hs, ReadyInv] using ⟨h1, h2⟩
      | true =>
        simp only [step, hs, if_false, if_true]
        by_cases hR : (s.reloader.reloadKeypair true).Ready = true
        · by_cases hc : s.readyClosed = true
          · have hcl : s.readyCloses = 1 := by simpa [hc] using h2
            simp [markReady, hR, hc, ReadyInv, hcl]
          · have hcf : s.readyClosed = false := by simpa using hc
            have hcl : s.readyCloses = 0 := by simpa [hcf] using h2
            simp [markReady, hR, hcf, ReadyInv, hcl]
        · have hRf : (s.reloader.reloadKeypair true).Ready = false := by
            simpa using hR
          have hrf : s.reloader.Ready = false := by
            by_contra hx
            have : s.reloader.Ready = true := by simpa using hx
            exact hR (Ready_mono_reloadKeypair s.reloader true this)
          have hcf : s.readyClosed = false := by rw [h1, hrf]
          have hcl : s.readyCloses = 0 := by simpa [hcf] using h2
          simp [ReadyInv, hRf, hcf, hcl]
    | caTimer ok =>
      cases ok with
      | false =>
        simpa [step, hs, ReadyInv] using ⟨h1, h2⟩
      | true =>
        simp only [step, hs, if_false, if_true]
        by_cases hR : (s.reloader.reloadCA true).Ready = true
        · by_cases hc : s.readyClosed = true
          · have hcl : s.readyCloses = 1 := by simpa [hc] using h2
            simp [markReady, hR, hc, ReadyInv, hcl]
          · have hcf : s.readyClosed = false := by simpa using hc
            have hcl : s.readyCloses = 0 := by simpa [hcf] using h2
            simp [markReady, hR, hcf, ReadyInv, hcl]
        · have hRf : (s.reloader.reloadCA true).Ready = false := by
            simpa using hR
          have hrf : s.reloader.Ready = false := by
            by_contra hx
            have : s.reloader.Ready = true := by simpa using hx
            exact hR (Ready_mono_reloadCA s.reloader true this)
          have hcf : s.readyClosed = false := by rw [h1, hrf]
          have hcl : s.readyCloses = 0 := by simpa [hcf] using h2
          simp [ReadyInv, hRf, hcf, hcl]
    | fsError =>
      simpa [step, hs, ReadyInv] using ⟨h1, h2⟩
    | stopReq =>
      simpa [step, hs, ReadyInv] using ⟨h1, h2⟩

/-- The readiness invariant is preserved by every run of the loop. -/
theorem runLoop_readyInv (evs : List LoopEvent) (s : LoopState)
    (h : ReadyInv s) : ReadyInv (runLoop s evs) := by
  induction evs generalizing s with
  | nil => exact h
  | cons e rest ih =>
    have : runLoop s (e :: rest) = runLoop (step s e) rest := by
      simp [runLoop, List.foldl]
    rw [this]
    exact ih (step s e) (step_readyInv s e h)

/-- No loop step changes the configured paths, so the role classification
built from them at loop entry is read-only for the lifetime of the loop. -/
theorem step_preserves_paths (s : LoopState) (e : LoopEvent) :
    (step s e).reloader.certFile = s.reloader.certFile ∧
    (step s e).reloader.privkeyFile = s.reloader.privkeyFile ∧
    (step s e).reloader.caFiles = s.reloader.caFiles := by
  cases hs : s.stopped with
  | true => simp [step, hs]
  | false =>
    cases e with
    | fsEvent p =>
      rw [(step_fsEvent_preserves_ready s p).2.2]
      exact ⟨rfl, rfl, rfl⟩
    | keypairTimer ok =>
      rw [(step_keypairTimer_fields s ok hs).2.2.2.2.2.2.2]
      simp
    | caTimer ok =>
      rw [(step_caTimer_fields s ok hs).2.2.2.2.2.2.2]
      simp
    | fsError => simp [step, hs]
    | stopReq => simp [step, hs]

/-- A filesystem notification never terminates the loop, whatever the path. -/
theorem step_fsEvent_stopped (s : LoopState) (q : String) :
    (step s (.fsEvent q)).stopped = s.stopped := by
  cases hs : s.stopped <;>
    cases hk : keypairMember s.reloader q <;>
    cases hc : caMember s.reloader q <;>
    cases ha : s.keypairArmed <;>
    cases hca : s.caArmed <;>
    simp [step, hs, hk, hc, ha, hca]

/-! ## Claim theorems -/

/-- C1 (counterexample): the claim's "fires exactly once iff both required
roles have succeeded at least once" is false as stated. After
`FutureWatcher`'s two eager reloads both succeed, both required roles have
succeeded at least once (the store is ready), yet over the subsequent
lifetime of the event loop started by `Watch` (here: no filesystem event ever
arrives, as when all files exist from the start and are never rotated) the
ready channel is closed zero times, not exactly once. -/
theorem readiness_exactly_once_counterexample :
    (futureBody sampleReloader true true false).2.Ready = true ∧
    (runLoop (initState (futureBody sampleReloader true true false).2)
      []).readyCloses = 0 := by
  decide

/-- C1 (amended): for a Watcher whose credential store is not yet ready when
its event loop starts, across every sequence of events processed by the loop
the ready channel returned by `Watch` is closed at most once, and it is
closed exactly once iff both required roles have succeeded at least once
(i.e. the store has become ready). -/
theorem readiness_single_delivery (r : FileReloader) (evs : List LoopEvent)
    (hr : r.Ready = false) :
    (runLoop (initState r) evs).readyCloses ≤ 1 ∧
    ((runLoop (initState r) evs).readyCloses = 1 ↔
      (runLoop (initState r) evs).reloader.Ready = true) := by
  have hinv : ReadyInv (initState r) :=
    ⟨by simp [initState, hr], by simp [initState]⟩
  obtain ⟨h1, h2⟩ := runLoop_readyInv evs (initState r) hinv
  constructor
  · rw [h2]; split <;> simp
  · rw [h2, ← h1]
    cases hx : (runLoop (initState r) evs).readyClosed <;> simp

/-- C1 (witness): `readiness_single_delivery` applied to the sample
configuration and a run in which the keypair and then the CA are successfully
reloaded. -/
theorem readiness_single_delivery_witness :
    sampleReloader.Ready = false ∧
    ((runLoop (initState sampleReloader)
        [.fsEvent "cert", .keypairTimer true, .fsEvent "ca", .caTimer true]).readyCloses ≤ 1 ∧
      ((runLoop (initState sampleReloader)
        [.fsEvent "cert", .keypairTimer true, .fsEvent "ca", .caTimer true]).readyCloses = 1 ↔
       (runLoop (initState sampleReloader)
        [.fsEvent "cert", .keypairTimer true, .fsEvent "ca", .caTimer true]).reloader.Ready = true)) :=
  ⟨by decide, readiness_single_delivery sampleReloader
    [.fsEvent "cert", .keypairTimer true, .fsEvent "ca", .caTimer true] (by decide)⟩

/-- C3 (code bug): `Stop` is `select \x7b case <-w.stop: default: close(w.stop) \x7d`,
which is not safe under concurrent invocation. The first conjunct exhibits an
interleaving of two concurrent `Stop` calls (both selects observe the channel
open and pick the default case, then both close) in which `close` executes
twice on the stop channel: in Go, the second `close` of an already-closed
channel panics at run time, contradicting the claim's "including
concurrently, never panics and results in exactly one close". The remaining
conjuncts show the sequential behaviour is correct: a second sequential
`Stop` observes the closed channel in its select and its `close` is
unreachable. -/
theorem stop_concurrent_double_close :
    stopRun stopInit [.check1, .check2, .close1, .close2] =
      some { stopClosed := true, closeCount := 2, pc1 := .done, pc2 := .done } ∧
    stopRun stopInit [.check1, .close1, .check2] =
      some { stopClosed := true, closeCount := 1, pc1 := .done, pc2 := .done } ∧
    stopRun stopInit [.check1, .close1, .check2, .close2] = none := by
  decide

/-- C4: when both eager reloads of `FutureWatcher`'s goroutine succeed, the
Watcher is sent on the result channel immediately — without waiting on the
ready channel or any filesystem event, whichever of readiness and stop would
fire first — and the delivered watcher's store is ready. -/
theorem future_eager_success_immediate (r : FileReloader) (readyFirst : Bool) :
    (futureBody r true true readyFirst).1 = .deliveredImmediately ∧
    (futureBody r true true readyFirst).2.Ready = true := by
  constructor
  · simp [futureBody]
  · simp [futureBody, FileReloader.reloadKeypair, FileReloader.reloadCA,
      FileReloader.Ready]

/-- C5: a timer-fire reload that fails logs the error and the loop continues:
the resulting state differs from the previous one only in the cleared armed
marker, the reload-call counter and the error log. In particular the store
(hence `Ready()`), the ready channel and its close counter, the other role's
timer, and the stop flag are unchanged, and no new timer is armed. -/
theorem reload_failure_nonfatal (s : LoopState) (hs : s.stopped = false) :
    step s (.keypairTimer false) =
      { s with keypairArmed := false,
               keypairReloadCalls := s.keypairReloadCalls + 1,
               reloadErrWarns := s.reloadErrWarns + 1 } ∧
    step s (.caTimer false) =
      { s with caArmed := false,
               caReloadCalls := s.caReloadCalls + 1,
               reloadErrWarns := s.reloadErrWarns + 1 } := by
  constructor <;> simp [step, hs]

/-- C5 (witness): `reload_failure_nonfatal` applied to the freshly started
sample loop. -/
theorem reload_failure_nonfatal_witness :
    sampleState.stopped = false ∧
    (step sampleState (.keypairTimer false) =
      { sampleState with keypairArmed := false,
                         keypairReloadCalls := sampleState.keypairReloadCalls + 1,
                         reloadErrWarns := sampleState.reloadErrWarns + 1 } ∧
     step sampleState (.caTimer false) =
      { sampleState with caArmed := false,
                         caReloadCalls := sampleState.caReloadCalls + 1,
                         reloadErrWarns := sampleState.reloadErrWarns + 1 }) :=
  ⟨by decide, reload_failure_nonfatal sampleState (by decide)⟩

/-- C2: for each role, a burst of notifications for that role's paths with no
timer fire in between produces exactly one reload. The first notification arms
the role's timer; every later notification of the burst is absorbed without
arming a second timer (exactly one `time.After` call); no reload happens
while the burst is processed; and the single timer fire clears the armed
marker and performs exactly one reload call for that role. -/
theorem debounce_coalescing
    (s t : LoopState) (kpaths capaths : List String) (ok okc : Bool)
    (hs : s.stopped = false) (ha : s.keypairArmed = false)
    (hkne : kpaths ≠ [])
    (hkall : ∀ p ∈ kpaths, keypairMember s.reloader p = true)
    (ht : t.stopped = false) (hta : t.caArmed = false)
    (hcne : capaths ≠ [])
    (hcak : ∀ p ∈ capaths, keypairMember t.reloader p = false)
    (hcac : ∀ p ∈ capaths, caMember t.reloader p = true) :
    ((runLoop s (kpaths.map .fsEvent)).keypairTimersArmed = s.keypairTimersArmed + 1 ∧
     (runLoop s (kpaths.map .fsEvent)).keypairArmed = true ∧
     (runLoop s (kpaths.map .fsEvent)).keypairReloadCalls = s.keypairReloadCalls ∧
     (step (runLoop s (kpaths.map .fsEvent)) (.keypairTimer ok)).keypairArmed = false ∧
     (step (runLoop s (kpaths.map .fsEvent)) (.keypairTimer ok)).keypairReloadCalls =
       s.keypairReloadCalls + 1) ∧
    ((runLoop t (capaths.map .fsEvent)).caTimersArmed = t.caTimersArmed + 1 ∧
     (runLoop t (capaths.map .fsEvent)).caArmed = true ∧
     (runLoop t (capaths.map .fsEvent)).caReloadCalls = t.caReloadCalls ∧
     (step (runLoop t (capaths.map .fsEvent)) (.caTimer okc)).caArmed = false ∧
     (step (runLoop t (capaths.map .fsEvent)) (.caTimer okc)).caReloadCalls =
       t.caReloadCalls + 1) := by
  constructor
  · obtain ⟨p, rest, rfl⟩ : ∃ p rest, kpaths = p :: rest := by
      cases kpaths with
      | nil => exact absurd rfl hkne
      | cons a b => exact ⟨a, b, rfl⟩
    have hstep : step s (.fsEvent p) =
        { s with keypairArmed := true,
                 keypairTimersArmed := s.keypairTimersArmed + 1 } :=
      step_fsEvent_arms_keypair s p hs ha (hkall p (by simp))
    have hrun : runLoop s ((p :: rest).map .fsEvent) =
        { s with keypairArmed := true,
                 keypairTimersArmed := s.keypairTimersArmed + 1 } := by
      have hsplit : runLoop s ((p :: rest).map .fsEvent) =
          runLoop (step s (.fsEvent p)) (rest.map .fsEvent) := by
        simp [runLoop, List.foldl]
      rw [hsplit, hstep]
      exact runLoop_keypair_burst_absorbed rest _ hs rfl
        (fun q hq => hkall q (by simp [hq]))
    rw [hrun]
    have hfire := step_keypairTimer_fields
      { s with keypairArmed := true,
               keypairTimersArmed := s.keypairTimersArmed + 1 } ok hs
    exact ⟨rfl, rfl, rfl, hfire.1, hfire.2.2.1⟩
  · obtain ⟨p, rest, rfl⟩ : ∃ p rest, capaths = p :: rest := by
      cases capaths with
      | nil => exact absurd rfl hcne
      | cons a b => exact ⟨a, b, rfl⟩
    have hstep : step t (.fsEvent p) =
        { t with caArmed := true, caTimersArmed := t.caTimersArmed + 1 } :=
      step_fsEvent_arms_ca t p ht hta (hcak p (by simp)) (hcac p (by simp))
    have hrun : runLoop t ((p :: rest).map .fsEvent) =
        { t with caArmed := true, caTimersArmed := t.caTimersArmed + 1 } := by
      have hsplit : runLoop t ((p :: rest).map .fsEvent) =
          runLoop (step t (.fsEvent p)) (rest.map .fsEvent) := by
        simp [runLoop, List.foldl]
      rw [hsplit, hstep]
      exact runLoop_ca_burst_absorbed rest _ ht rfl
        (fun q hq => hcak q (by simp [hq]))
        (fun q hq => hcac q (by simp [hq]))
    rw [hrun]
    have hfire := step_caTimer_fields
      { t with caArmed := true, caTimersArmed := t.caTimersArmed + 1 } okc ht
    exact ⟨rfl, rfl, rfl, hfire.1, hfire.2.2.1⟩

/-- C2 (witness): `debounce_coalescing` applied to the sample configuration,
with a burst of two keypair notifications plus one repeated, and a burst of
two CA notifications. -/
theorem debounce_coalescing_witness :
    sampleState.keypairArmed = false ∧ sampleState.caArmed = false ∧
    (((runLoop sampleState (["cert", "key", "cert"].map .fsEvent)).keypairTimersArmed =
        sampleState.keypairTimersArmed + 1 ∧
      (runLoop sampleState (["cert", "key", "cert"].map .fsEvent)).keypairArmed = true ∧
      (runLoop sampleState (["cert", "key", "cert"].map .fsEvent)).keypairReloadCalls =
        sampleState.keypairReloadCalls ∧
      (step (runLoop sampleState (["cert", "key", "cert"].map .fsEvent))
        (.keypairTimer true)).keypairArmed = false ∧
      (step (runLoop sampleState (["cert", "key", "cert"].map .fsEvent))
        (.keypairTimer true)).keypairReloadCalls = sampleState.keypairReloadCalls + 1) ∧
     ((runLoop sampleState (["ca", "ca"].map .fsEvent)).caTimersArmed =
        sampleState.caTimersArmed + 1 ∧
      (runLoop sampleState (["ca", "ca"].map .fsEvent)).caArmed = true ∧
      (runLoop sampleState (["ca", "ca"].map .fsEvent)).caReloadCalls =
        sampleState.caReloadCalls ∧
      (step (runLoop sampleState (["ca", "ca"].map .fsEvent))
        (.caTimer false)).caArmed = false ∧
      (step (runLoop sampleState (["ca", "ca"].map .fsEvent))
        (.caTimer false)).caReloadCalls = sampleState.caReloadCalls + 1)) :=
  ⟨by decide, by decide,
    debounce_coalescing sampleState sampleState ["cert", "key", "cert"] ["ca", "ca"]
      true false (by decide) (by decide) (by decide) (by decide)
      (by decide) (by decide) (by decide) (by decide) (by decide)⟩

/-- C6 (counterexample): the claim's "every watched path appears in exactly
one of the keypair-path set and the CA-path set" is false as stated. When the
certificate path is also configured as a CA path, that path is asked to be
watched and belongs to BOTH sets. -/
theorem classification_exactly_one_counterexample :
    "shared" ∈ trackFilesOf sharedReloader ∧
    keypairMember sharedReloader "shared" = true ∧
    caMember sharedReloader "shared" = true ∧
    ¬((keypairMember sharedReloader "shared" = true ∧
       caMember sharedReloader "shared" = false) ∨
      (keypairMember sharedReloader "shared" = false ∧
       caMember sharedReloader "shared" = true)) := by
  decide

/-- C6 (amended): the classification is read-only after loop startup (no loop
step changes the configured paths it is computed from), every path the file
event source is asked to watch belongs to at least one of the keypair-path
set and the CA-path set — to exactly one whenever it is not configured for
both roles — and a notification, in particular for a path configured as both
cert and CA path, never crashes or terminates the loop. -/
theorem classification_amended (r : FileReloader) (s : LoopState)
    (p q : String) (e : LoopEvent) (hp : p ∈ trackFilesOf r) :
    (keypairMember r p = true ∨ caMember r p = true) ∧
    ((keypairMember r p && caMember r p) = false →
      ((keypairMember r p = true ∧ caMember r p = false) ∨
       (keypairMember r p = false ∧ caMember r p = true))) ∧
    (step s e).reloader.certFile = s.reloader.certFile ∧
    (step s e).reloader.privkeyFile = s.reloader.privkeyFile ∧
    (step s e).reloader.caFiles = s.reloader.caFiles ∧
    (step s (.fsEvent q)).stopped = s.stopped := by
  have h1 : keypairMember r p = true ∨ caMember r p = true := by
    by_cases hc : r.certFile = "" <;> by_cases hk : r.privkeyFile = "" <;>
      simp [trackFilesOf, hc, hk, List.mem_filter] at hp <;>
      simp [keypairMember, caMember, hc, hk] <;>
      tauto
  have h2 : (keypairMember r p && caMember r p) = false →
      ((keypairMember r p = true ∧ caMember r p = false) ∨
       (keypairMember r p = false ∧ caMember r p = true)) := by
    intro hov
    cases hx : keypairMember r p <;> cases hy : caMember r p <;>
      simp_all
  obtain ⟨e1, e2, e3⟩ := step_preserves_paths s e
  exact ⟨h1, h2, e1, e2, e3, step_fsEvent_stopped s q⟩

/-- C6 (witness): `classification_amended` applied to the configuration in
which the certificate path is also a CA path, at that shared path. -/
theorem classification_amended_witness :
    "shared" ∈ trackFilesOf sharedReloader ∧
    ((keypairMember sharedReloader "shared" = true ∨
      caMember sharedReloader "shared" = true) ∧
     ((keypairMember sharedReloader "shared" && caMember sharedReloader "shared") = false →
       ((keypairMember sharedReloader "shared" = true ∧
         caMember sharedReloader "shared" = false) ∨
        (keypairMember sharedReloader "shared" = false ∧
         caMember sharedReloader "shared" = true))) ∧
     (step sharedState (.keypairTimer true)).reloader.certFile =
       sharedState.reloader.certFile ∧
     (step sharedState (.keypairTimer true)).reloader.privkeyFile =
       sharedState.reloader.privkeyFile ∧
     (step sharedState (.keypairTimer true)).reloader.caFiles =
       sharedState.reloader.caFiles ∧
     (step sharedState (.fsEvent "shared")).stopped = sharedState.stopped) :=
  ⟨by decide, classification_amended sharedReloader sharedState "shared" "shared"
    (.keypairTimer true) (by decide)⟩

/-- C7: a notification for a path in neither role set only logs a warning:
the resulting state is identical except for the warning counter (no timer
armed, no reload, loop not terminated), and a subsequent notification for a
tracked path still arms its debounce timer as usual. -/
theorem unknown_path_ignored (s : LoopState) (p q : String)
    (hs : s.stopped = false)
    (hk : keypairMember s.reloader p = false)
    (hc : caMember s.reloader p = false)
    (ha : s.keypairArmed = false)
    (hq : keypairMember s.reloader q = true) :
    step s (.fsEvent p) = { s with unknownWarns := s.unknownWarns + 1 } ∧
    (runLoop s [.fsEvent p, .fsEvent q]).keypairArmed = true ∧
    (runLoop s [.fsEvent p, .fsEvent q]).keypairTimersArmed =
      s.keypairTimersArmed + 1 := by
  have h1 : step s (.fsEvent p) = { s with unknownWarns := s.unknownWarns + 1 } := by
    simp [step, hs, hk, hc]
  have h2 : runLoop s [.fsEvent p, .fsEvent q] =
      step (step s (.fsEvent p)) (.fsEvent q) := rfl
  have h3 : step ({ s with unknownWarns := s.unknownWarns + 1 }) (.fsEvent q) =
      { s with unknownWarns := s.unknownWarns + 1,
               keypairArmed := true,
               keypairTimersArmed := s.keypairTimersArmed + 1 } :=
    step_fsEvent_arms_keypair _ q hs ha hq
  refine ⟨h1, ?_, ?_⟩ <;> rw [h2, h1, h3]

/-- C7 (witness): `unknown_path_ignored` applied to the sample loop with an
untracked path followed by the tracked private-key path. -/
theorem unknown_path_ignored_witness :
    keypairMember sampleReloader "bogus" = false ∧
    caMember sampleReloader "bogus" = false ∧
    (step sampleState (.fsEvent "bogus") =
      { sampleState with unknownWarns := sampleState.unknownWarns + 1 } ∧
     (runLoop sampleState [.fsEvent "bogus", .fsEvent "key"]).keypairArmed = true ∧
     (runLoop sampleState [.fsEvent "bogus", .fsEvent "key"]).keypairTimersArmed =
       sampleState.keypairTimersArmed + 1) :=
  ⟨by decide, by decide,
    unknown_path_ignored sampleState "bogus" "key"
      (by decide) (by decide) (by decide) (by decide) (by decide)⟩

/-- C8: when the two eager reloads of `FutureWatcher` do not both succeed and
the stop request wins the race against the readiness signal, the goroutine
returns from the stop branch and the deferred close shuts the result channel
with no value ever sent on it. -/
theorem future_stop_before_ready_closes_empty (r : FileReloader)
    (keypairOk caOk : Bool) (h : (keypairOk && caOk) = false) :
    (futureBody r keypairOk caOk false).1 = .stoppedClosedEmpty := by
  simp [futureBody, h]

/-- C8 (witness): `future_stop_before_ready_closes_empty` with a successful
keypair reload but a failed CA reload. -/
theorem future_stop_before_ready_closes_empty_witness :
    ((true && false) = false) ∧
    (futureBody sampleReloader true false false).1 = .stoppedClosedEmpty :=
  ⟨by decide, future_stop_before_ready_closes_empty sampleReloader true false (by decide)⟩

/-- C9: a notification for a path configured both as a keypair path and as a
CA path arms only the keypair debounce timer: the keypair membership test is
performed first and the CA branch is an else-if, so the resulting state has
the keypair timer armed while the CA timer marker and CA timer counter are
untouched. -/
theorem ambiguous_path_keypair_precedence (s : LoopState) (p : String)
    (hs : s.stopped = false) (hk : keypairMember s.reloader p = true)
    (hc : caMember s.reloader p = true) (ha : s.keypairArmed = false) :
    step s (.fsEvent p) =
      { s with keypairArmed := true,
               keypairTimersArmed := s.keypairTimersArmed + 1 } := by
  simp [step, hs, hk, ha]

/-- C9 (witness): `ambiguous_path_keypair_precedence` at the shared cert/CA
path of `sharedReloader`. -/
theorem ambiguous_path_keypair_precedence_witness :
    keypairMember sharedReloader "shared" = true ∧
    caMember sharedReloader "shared" = true ∧
    step sharedState (.fsEvent "shared") =
      { sharedState with keypairArmed := true,
                         keypairTimersArmed := sharedState.keypairTimersArmed + 1 } :=
  ⟨by decide, by decide,
    ambiguous_path_keypair_precedence sharedState "shared"
      (by decide) (by decide) (by decide) (by decide)⟩

/-- C10: `NewWatcher` (which builds its store with the eagerly-loading
reloader constructor) yields a watcher only when both credential roles were
immediately loadable, and the returned watcher's store is ready before its
event loop processes any filesystem event. -/
theorem newWatcher_requires_loadable (caFiles : List String)
    (certFile privkeyFile : String) (kOk cOk fsOk : Bool) (w : WatcherModel)
    (hw : NewWatcher caFiles certFile privkeyFile kOk cOk fsOk = some w) :
    kOk = true ∧ cOk = true ∧ w.reloader.Ready = true ∧
    (runLoop (initState w.reloader) []).reloader.Ready = true := by
  cases kOk <;> cases cOk <;>
    simp [NewWatcher, NewFileReloaderReady] at hw
  cases fsOk <;> simp at hw
  subst hw
  refine ⟨rfl, rfl, ?_, ?_⟩ <;> simp [FileReloader.Ready, runLoop, initState]

/-- C10 (witness): `newWatcher_requires_loadable` on the sample paths with
both roles loadable. -/
theorem newWatcher_requires_loadable_witness :
    NewWatcher ["ca"] "cert" "key" true true true = some readyWatcher ∧
    (true = true ∧ true = true ∧ readyWatcher.reloader.Ready = true ∧
     (runLoop (initState readyWatcher.reloader) []).reloader.Ready = true) :=
  ⟨by decide,
    newWatcher_requires_loadable ["ca"] "cert" "key" true true true readyWatcher
      (by decide)⟩

end Certloader
